import Mathlib

/-!
Verification development for the turtle-trading scripts
`whipsaw_0.1.py` and `whipsaw_0.2.py` (directory `eurusd_turtletrader_70_8`).

Python floats are modelled as exact rationals, Python `round` as
round-half-to-even on rationals, raised exceptions as `Except` errors.
-/

namespace Whipsaw

/-- Python 3 built-in `round` applied to a real (here: rational) value:
nearest integer, ties go to the even integer. -/
def pyRound (q : ℚ) : ℤ :=
  if q - ⌊q⌋ < 1/2 then ⌊q⌋
  else if 1/2 < q - ⌊q⌋ then ⌊q⌋ + 1
  else if ⌊q⌋ % 2 = 0 then ⌊q⌋ else ⌊q⌋ + 1

/-- Exceptions that the modelled fragments of the scripts can raise.
AssertionError raised by the remaining-orders asserts is `unitCorrupted`
(the corruption condition of the spec); a Python ZeroDivisionError is
`zeroDivision`. -/
inductive RunError where
  | unitCorrupted
  | zeroDivision
deriving DecidableEq

/-- Direction of the persisted unit. -/
inductive Direction where
  | flat
  | long
  | short
deriving DecidableEq

/-- Flag `is_long` from `run` in whipsaw_0.2.py (lines 67, 71-72):
true when the live exposure exceeds 100 units. -/
def is_long_flag (current_unit_size : ℚ) : Bool :=
  current_unit_size > 100

/-- Flag `is_short` from `run` in whipsaw_0.2.py (lines 66, 73-74):
true when the live exposure is below -100 units. -/
def is_short_flag (current_unit_size : ℚ) : Bool :=
  current_unit_size < -100

/-- Direction classification derived from the two flags set in `run`
(whipsaw_0.2.py lines 66-74, whipsaw_0.1.py lines 69-74): long when the
exposure is above 100, short when below -100, flat otherwise.  The two
flag conditions are mutually exclusive, so the pair of booleans is
equivalent to this three-valued direction. -/
def classify (current_unit_size : ℚ) : Direction :=
  if current_unit_size > 100 then Direction.long
  else if current_unit_size < -100 then Direction.short
  else Direction.flat

/-- Remaining-orders computation from `run` in whipsaw_0.2.py, lines
185-195.  The script computes
`round((max_unit_size - current_unit_size) / (max_unit_size / 4))`
with the SIGNED stored `currentUnitSize` (no absolute value) and then
asserts `remaining_orders < 4` and `remaining_orders > 0`; a failed
assert raises and aborts the run for the instrument.  Dividing by a
zero `max_entry_size` raises ZeroDivisionError in Python. -/
def remaining_orders_calc (max_unit_size current_unit_size : ℚ) : Except RunError ℤ :=
  if max_unit_size / 4 = 0 then Except.error RunError.zeroDivision
  else if pyRound ((max_unit_size - current_unit_size) / (max_unit_size / 4)) ≥ 4 then
    Except.error RunError.unitCorrupted
  else if pyRound ((max_unit_size - current_unit_size) / (max_unit_size / 4)) ≤ 0 then
    Except.error RunError.unitCorrupted
  else Except.ok (pyRound ((max_unit_size - current_unit_size) / (max_unit_size / 4)))

/-- Formula for `remainingTranches` as written in the spec (section 4.3):
`round((maxUnitSize - |currentUnitSize|) / (maxUnitSize / 4))` with the
absolute value of the signed unit size.  Declared separately from the
source translation `remaining_orders_calc` so the two can be compared. -/
def spec_remainingTranches (maxUnitSize currentUnitSize : ℚ) : ℤ :=
  pyRound ((maxUnitSize - |currentUnitSize|) / (maxUnitSize / 4))

/-- Tag list built in step (9) of `run`, whipsaw_0.2.py lines 256-263.
The source is an if / elif / elif chain: when `remaining_orders >= 1`
only the first branch runs, so the later branches (entryC, entryD) are
unreachable for every value that passes the preceding asserts. -/
def compound_order_json_tags (remaining_orders : ℤ) : List String :=
  if remaining_orders ≥ 1 then ["entryB"]
  else if remaining_orders ≥ 2 then ["entryC"]
  else if remaining_orders = 3 then ["entryD"]
  else []

/-- Compound entry trigger price from `generate_compound_entry_info`,
whipsaw_0.2.py lines 324-332: for a long unit the previous entry price
plus `offset * atr_multiple`; for a short unit the source NEGATES the
previous entry price and subtracts the offset
(`- last_entry priceCondition - offset * atr_multiple`).  Both the
half-ATR stop size and the offset step are `get_atr_multiple` with the
default multiplier, hence the single `atr` argument. -/
def compound_price_condition (is_long : Bool) (last_price_condition offset atr : ℚ) : ℚ :=
  if is_long then last_price_condition + offset * atr
  else - last_price_condition - offset * atr

/-- Compound entry stop price from `generate_compound_entry_info`,
whipsaw_0.2.py lines 327 and 333: entry price minus the stop size for a
long unit, plus the stop size for a short unit. -/
def compound_sl_price (is_long : Bool) (price_condition atr : ℚ) : ℚ :=
  if is_long then price_condition - atr else price_condition + atr

/-- Compound trigger price for a short unit as described by the spec
(section 4.4): the previous fill price offset AGAINST the previous price
in the trend direction, `last - offset * stopDistance`, never negated.
Declared separately so it can be compared with the source translation. -/
def spec_compound_price_short (last_price offset stop_distance : ℚ) : ℚ :=
  last_price - offset * stop_distance

/-- Per-tranche quantity from `generate_compound_entry_info`,
whipsaw_0.2.py line 297: `round(maxUnitSize / 4)`, the same for every
compound tranche. -/
def compound_total_quantity (max_unit_size : ℚ) : ℤ :=
  pyRound (max_unit_size / 4)

/-- Position sizing from `set_position_size` (whipsaw_0.2.py lines
775-797, identical in whipsaw_0.1.py lines 461-482): risk 0.5 percent of
available funds divided by the stop size, converted through the base
exchange rate when the quote currency differs from the account base
currency.  The source contains NO guard on `sl_size`: a zero stop size
reaches the division and raises ZeroDivisionError, and a negative stop
size is divided through and produces a non-positive size. -/
def set_position_size (available_funds sl_size base_exchange : ℚ)
    (base_matches_quote : Bool) : Except RunError ℤ :=
  if base_matches_quote then
    if sl_size = 0 then Except.error RunError.zeroDivision
    else Except.ok (pyRound (available_funds * (5/1000) / sl_size))
  else
    if base_exchange = 0 then Except.error RunError.zeroDivision
    else if sl_size = 0 then Except.error RunError.zeroDivision
    else Except.ok (pyRound (1 / base_exchange * (available_funds * (5/1000)) / sl_size))

/-- One stored order record: the fields of the json order dictionaries
used throughout whipsaw_0.2.py (see the template in the doc string of
`save_unit_info_to_json`, lines 438-448). -/
structure OrderData where
  action : String
  orderType : String
  tif : String
  totalQuantity : ℚ
  transmit : Bool
  priceCondition : ℚ
  orderRef : String
  isMore : Bool
  slPrice : ℚ
deriving DecidableEq

/-- Zeroed order record, the template written by
`clear_unit_info_from_json` and intended by `clear_orders_from_json`
(whipsaw_0.2.py lines 487-508 and 528-538). -/
def cleared_order_data : OrderData :=
  { action := "", orderType := "", tif := "", totalQuantity := 0,
    transmit := false, priceCondition := 0, orderRef := "",
    isMore := false, slPrice := 0 }

/-- The persisted `unitInfo` record of one instrument (whipsaw_0.2.py,
keys written by `save_unit_info_to_json`, lines 460-473). -/
structure UnitInfo where
  maxUnitSize : ℚ
  currentUnitSize : ℚ
  exitAllPrice : ℚ
  isLong : Bool
  isShort : Bool
  longEntry : OrderData
  shortEntry : OrderData
deriving DecidableEq

/-- The persisted json record of one instrument symbol: the `unitInfo`
dictionary plus the per-tranche `entryInfo` ordered dictionary. -/
structure SymbolData where
  unitInfo : UnitInfo
  entryInfo : List (String × OrderData)
deriving DecidableEq

/-- Mutator `save_unit_info_to_json`, whipsaw_0.2.py lines 434-476.
Every keyword argument defaults to Python `False` and a field is
overwritten only when the passed value is truthy, so a numeric field is
updated only when the value is non-zero, a boolean flag only when it is
`True`, and an entry dictionary only when one is passed (the entry
dictionaries passed by the callers are non-empty, hence truthy; `none`
models an omitted argument, which behaves like the falsy default).
Only the `unitInfo` part of the record is touched. -/
def save_unit_info_to_json (d : SymbolData)
    (max_unit_size current_unit_size exit_all_price : Option ℚ)
    (is_short is_long : Option Bool)
    (long_entry short_entry : Option OrderData) : SymbolData :=
  let ui := d.unitInfo
  let ui := if max_unit_size.getD 0 ≠ 0 then
    { ui with maxUnitSize := max_unit_size.getD 0 } else ui
  let ui := if current_unit_size.getD 0 ≠ 0 then
    { ui with currentUnitSize := current_unit_size.getD 0 } else ui
  let ui := if exit_all_price.getD 0 ≠ 0 then
    { ui with exitAllPrice := exit_all_price.getD 0 } else ui
  let ui := if is_long.getD false then { ui with isLong := is_long.getD false } else ui
  let ui := if is_short.getD false then { ui with isShort := is_short.getD false } else ui
  let ui := match long_entry with
            | some e => { ui with longEntry := e }
            | none => ui
  let ui := match short_entry with
            | some e => { ui with shortEntry := e }
            | none => ui
  { d with unitInfo := ui }

/-- Default order-name list of `clear_orders_from_json`,
whipsaw_0.2.py lines 513-520. -/
def default_order_name_list : List String :=
  ["entryA", "entryB", "entryC", "entryD", "slA", "slB", "slC", "slD"]

/-- Function `clear_orders_from_json`, whipsaw_0.2.py lines 513-539.
The Python body iterates the KEYS of the entryInfo dictionary and, on a
key match, executes `order_data = ZEROED_DICT`, which only rebinds the
inner loop variable; `data_dict` itself is never modified, and
`save_data_to_json(data_dict)` then persists the unchanged record.  The
rebound zeroed dictionary is the discarded `let` below. -/
def clear_orders_from_json (d : SymbolData) (order_name_list : List String) : SymbolData :=
  order_name_list.foldl
    (fun data_dict order_name =>
      data_dict.entryInfo.foldl
        (fun st kv =>
          if kv.fst = order_name then
            let _order_data := cleared_order_data
            st
          else st)
        data_dict)
    d

/-- Persistence performed by the flat branch of `run`, whipsaw_0.2.py
lines 82-107: `clear_orders_from_json` with the default order-name list,
then `save_unit_info_to_json` called with `max_unit_size`,
`current_unit_size` and the two freshly generated entry dictionaries
(no `is_long`, `is_short` or `exit_all_price` arguments). -/
def flat_branch_persist (d : SymbolData) (max_unit_size current_unit_size : ℚ)
    (long_entry short_entry : OrderData) : SymbolData :=
  save_unit_info_to_json (clear_orders_from_json d default_order_name_list)
    (some max_unit_size) (some current_unit_size) none none none
    (some long_entry) (some short_entry)

/-- An order object as assembled by `place_order` (whipsaw_0.1.py lines
731-770) and `create_order` (whipsaw_0.2.py lines 826-865): the fields
set on the ib_insync `Order`, with the single attached price condition
inlined.  Order ids come from the venue request-id counter and are
modelled as the position of the `place_order` call inside one builder
invocation. -/
structure IBOrder where
  orderId : ℤ
  action : String
  orderType : String
  tif : String
  totalQuantity : ℚ
  transmit : Bool
  orderRef : String
  parentId : Option ℤ
  conditionPrice : ℚ
  conditionIsMore : Bool
deriving DecidableEq

/-- Constructor `place_order` from whipsaw_0.1.py lines 731-770 on the
code path used by `go_long` and `go_short`, where an order reference and
a price condition are always supplied. -/
def place_order (order_id : ℤ) (action order_type tif : String)
    (total_quantity : ℚ) (transmit : Bool) (price_condition : ℚ)
    (is_more : Bool) (order_ref : String) (parent_id : Option ℤ) : IBOrder :=
  { orderId := order_id, action := action, orderType := order_type,
    tif := tif, totalQuantity := total_quantity, transmit := transmit,
    orderRef := order_ref, parentId := parent_id,
    conditionPrice := price_condition, conditionIsMore := is_more }

/-- Python truthiness of the optional `last_fill_price` keyword argument
in `go_long` and `go_short`: `None` and `0` are falsy. -/
def truthyOpt (q : Option ℚ) : Bool :=
  q.getD 0 ≠ 0

/-- Order builder `go_short` from whipsaw_0.1.py lines 511-600.
`long_term_low` and `short_channel_upper` are the tick-adjusted Donchian
channel values read from the indicator frame; `atr` is the half-ATR
value returned by `get_atr_multiple`, which also serves as the default
`sl_size`.  With `is_exit_all` the function returns the single exit-all
order whose quantity is the `total_quantity` argument passed by the
caller; otherwise it returns entry, stop and exit legs. -/
def go_short (local_symbol : String)
    (long_term_low short_channel_upper atr sl_size : ℚ) (offset : ℚ)
    (last_fill_price : Option ℚ) (is_exit_all is_compound_order : Bool)
    (total_quantity : ℚ) : List IBOrder :=
  let short_exit_condition := short_channel_upper - offset * atr
  if is_exit_all then
    [place_order 0 "BUY" "MKT" "GTC" total_quantity true short_exit_condition true
      (local_symbol ++ "_short_exit_all") none]
  else
    let is_compound := is_compound_order && truthyOpt last_fill_price
    let compound_order_ref := if is_compound then "_compound" else ""
    let price_condition :=
      if is_compound then last_fill_price.getD 0 - offset * atr else long_term_low
    let short_entry := place_order 0 "SELL" "MKT" "GTC" total_quantity false
      price_condition false (local_symbol ++ compound_order_ref ++ "_short_entry") none
    let short_sl := place_order 1 "BUY" "MKT" "GTC" total_quantity false
      (price_condition + sl_size) true
      (local_symbol ++ compound_order_ref ++ "_short_sl") (some short_entry.orderId)
    let short_exit := place_order 2 "BUY" "MKT" "GTC" total_quantity true
      short_exit_condition true
      (local_symbol ++ compound_order_ref ++ "_short_exit") (some short_entry.orderId)
    [short_entry, short_sl, short_exit]

/-- Order builder `go_long` from whipsaw_0.1.py lines 603-691, the
mirror image of `go_short`: entries trigger above, stops sit below the
entry, the exit-all sells at the short-channel lower bound. -/
def go_long (local_symbol : String)
    (long_term_high short_channel_lower atr sl_size : ℚ) (offset : ℚ)
    (last_fill_price : Option ℚ) (is_exit_all is_compound_order : Bool)
    (total_quantity : ℚ) : List IBOrder :=
  let long_exit_condition := short_channel_lower + offset * atr
  if is_exit_all then
    [place_order 0 "SELL" "MKT" "GTC" total_quantity true long_exit_condition false
      (local_symbol ++ "_long_exit_all") none]
  else
    let is_compound := is_compound_order && truthyOpt last_fill_price
    let compound_order_ref := if is_compound then "_compound" else ""
    let price_condition :=
      if is_compound then last_fill_price.getD 0 + offset * atr else long_term_high
    let long_entry := place_order 0 "BUY" "MKT" "GTC" total_quantity false
      price_condition true (local_symbol ++ compound_order_ref ++ "_long_entry") none
    let long_sl := place_order 1 "SELL" "MKT" "GTC" total_quantity false
      (price_condition - sl_size) false
      (local_symbol ++ compound_order_ref ++ "_long_sl") (some long_entry.orderId)
    let long_exit := place_order 2 "SELL" "MKT" "GTC" total_quantity true
      long_exit_condition false
      (local_symbol ++ compound_order_ref ++ "_long_exit") (some long_entry.orderId)
    [long_entry, long_sl, long_exit]

/-- Per-instrument inputs of one iteration of the `run` loop in
whipsaw_0.2.py: the live venue facts (cash balance, base exchange rate,
account risk budget, half-ATR stop size) and the stored json unit sizes
read back in lines 186-187. -/
structure InstrumentRun where
  cash_balance : ℚ
  base_exchange : ℚ
  max_equity_at_risk : ℚ
  sl_size : ℚ
  stored_max_unit_size : ℚ
  stored_current_unit_size : ℚ
deriving DecidableEq

/-- Branch taken by one iteration of the `run` loop. -/
inductive RunOutcome where
  | placedInitialEntries
  | placedCompoundOrders (remaining : ℤ)
  | unitFullNoAction
deriving DecidableEq

/-- One iteration of the `run` loop of whipsaw_0.2.py (lines 50-279),
modelled through its branch decision and the remaining-orders
computation of the building branch: variable setup (lines 52-77), the
flat branch (line 82), the building branch up to and including the
asserted remaining-orders computation of step (7) (lines 120-195), and
the implicit do-nothing full branch.  The venue calls and persistence
steps that follow inside each branch are outside the model; what
matters here is which branch runs and whether the iteration raises. -/
def run_instrument (w : InstrumentRun) : Except RunError RunOutcome :=
  if w.sl_size * w.base_exchange = 0 then Except.error RunError.zeroDivision
  else
    let max_unit_size := w.max_equity_at_risk / (w.sl_size * w.base_exchange)
    let current_unit_size := w.cash_balance * w.base_exchange
    let unit_not_full :=
      decide (|current_unit_size| < |max_unit_size|) &&
        (is_long_flag current_unit_size || is_short_flag current_unit_size)
    if !(is_long_flag current_unit_size || is_short_flag current_unit_size) then
      Except.ok RunOutcome.placedInitialEntries
    else if unit_not_full then
      (remaining_orders_calc w.stored_max_unit_size w.stored_current_unit_size).map
        RunOutcome.placedCompoundOrders
    else Except.ok RunOutcome.unitFullNoAction

/-- The instrument loop of `run` (whipsaw_0.2.py line 50, identically
whipsaw_0.1.py line 50): a plain `for` over the configured instruments
with NO try/except around the body, so an exception raised for one
instrument propagates and ends the whole invocation.  Returns the
outcomes of the iterations that completed and the error that stopped
the loop, if any. -/
def run_batch : List InstrumentRun → List RunOutcome × Option RunError
  | [] => ([], none)
  | w :: rest =>
    match run_instrument w with
    | Except.ok outcome =>
      let p := run_batch rest
      (outcome :: p.fst, p.snd)
    | Except.error e => ([], some e)

/-- Concrete building-branch input holding a short unit: exposure
-10000 with stored sizes maxUnitSize 40000, currentUnitSize -10000. -/
def corrupt_short_input : InstrumentRun :=
  { cash_balance := -10000, base_exchange := 1, max_equity_at_risk := 2000,
    sl_size := 1/100, stored_max_unit_size := 40000,
    stored_current_unit_size := -10000 }

/-- Concrete flat-branch input: zero exposure. -/
def flat_input : InstrumentRun :=
  { cash_balance := 0, base_exchange := 1, max_equity_at_risk := 2000,
    sl_size := 1/100, stored_max_unit_size := 0,
    stored_current_unit_size := 0 }

/-- Concrete filled first tranche: a long entry of 10000 at 1.20 with
stop 1.19, as recorded in the json entryInfo. -/
def sample_filled_entryA : OrderData :=
  { action := "BUY", orderType := "MKT", tif := "GTC", totalQuantity := 10000,
    transmit := false, priceCondition := 6/5, orderRef := "EUR.USDentryA",
    isMore := true, slPrice := 119/100 }

/-- Concrete persisted record of a long unit of 15000 with one filled
tranche, the starting state of the exit scenario of the spec. -/
def sample_long_store : SymbolData :=
  { unitInfo :=
      { maxUnitSize := 40000, currentUnitSize := 15000, exitAllPrice := 118/100,
        isLong := true, isShort := false,
        longEntry := cleared_order_data, shortEntry := cleared_order_data },
    entryInfo := [("entryA", sample_filled_entryA)] }

/-- Helper: Python rounding of a non-positive value is non-positive. -/
theorem pyRound_nonpos {q : ℚ} (hq : q ≤ 0) : pyRound q ≤ 0 := by
  have hfl : ⌊q⌋ ≤ 0 := by
    have h0 : ⌊q⌋ ≤ ⌊(0:ℚ)⌋ := Int.floor_le_floor hq
    simpa using h0
  have hle : (⌊q⌋ : ℚ) ≤ q := Int.floor_le q
  unfold pyRound
  split
  · exact hfl
  · split
    · rename_i h1 h2
      have hneg : (⌊q⌋ : ℚ) < 0 := by
        push_neg at h1
        linarith
      have : ⌊q⌋ < 0 := by exact_mod_cast hneg
      omega
    · split
      · exact hfl
      · rename_i h1 h2 h3
        push_neg at h1 h2
        have heq : q - ⌊q⌋ = 1/2 := le_antisymm h2 h1
        have hneg : (⌊q⌋ : ℚ) < 0 := by linarith
        have : ⌊q⌋ < 0 := by exact_mod_cast hneg
        omega

/-- C1: whenever the remaining-tranches computation of whipsaw_0.2.py
(lines 185-195) returns a value instead of raising, that value lies in
the interval 0..4, and in fact in 1..3 — the value the building branch
goes on to use, reached exactly when the direction is non-flat and the
unit is not full.  Out-of-range values are turned into a raised
AssertionError (`unitCorrupted`) by the two asserts, so no value outside
the range can ever be returned. -/
theorem c1_remaining_tranches_range (m c : ℚ) (r : ℤ)
    (h : remaining_orders_calc m c = Except.ok r) :
    (0 ≤ r ∧ r ≤ 4) ∧ 1 ≤ r ∧ r ≤ 3 := by
  unfold remaining_orders_calc at h
  split at h
  · simp at h
  · split at h
    · simp at h
    · split at h
      · simp at h
      · rename_i hz h4 h0
        injection h with h
        omega

/-- Witness for C1 at the concrete spec scenario maxUnitSize 40000,
currentUnitSize 10000, where the computation returns 3. -/
theorem c1_witness : (0 ≤ (3:ℤ) ∧ (3:ℤ) ≤ 4) ∧ 1 ≤ (3:ℤ) ∧ (3:ℤ) ≤ 3 :=
  c1_remaining_tranches_range 40000 10000 3
    (by norm_num [remaining_orders_calc, pyRound])

/-- C2 (code bug): the source divides the SIGNED stored currentUnitSize,
not its absolute value.  For the long example of the spec
(maxUnitSize 40000, currentUnitSize 10000) source and spec formula agree
on 3, but for the short unit of the same magnitude
(currentUnitSize -10000) the source computes round(50000/10000) = 5 and
the assert raises, while the spec formula with the absolute value gives
3 — so the result is NOT the same for a long and a short unit of equal
magnitude, and every short unit aborts in the building branch. -/
theorem c2_signed_unit_size_bug :
    remaining_orders_calc 40000 10000 = Except.ok 3 ∧
    spec_remainingTranches 40000 10000 = 3 ∧
    remaining_orders_calc 40000 (-10000) = Except.error RunError.unitCorrupted ∧
    spec_remainingTranches 40000 (-10000) = 3 := by
  refine ⟨?_, ?_, ?_, ?_⟩ <;>
    norm_num [remaining_orders_calc, spec_remainingTranches, pyRound]

/-- C3 (code bug): the tag list of step (9) of `run` (whipsaw_0.2.py
lines 256-263) is built by an if / elif / elif chain, so for EVERY
remaining-tranches value in 1..3 exactly one compound entry tag
(entryB) is emitted — the entryC and entryD branches are dead code and
the number of compound entry legs never equals a remainingTranches of 2
or 3.  The per-tranche quantity round(maxUnitSize / 4) itself matches
the equal-tranche sizing of the claim. -/
theorem c3_compound_tag_chain_bug :
    compound_order_json_tags 1 = ["entryB"] ∧
    compound_order_json_tags 2 = ["entryB"] ∧
    compound_order_json_tags 3 = ["entryB"] ∧
    (compound_order_json_tags 2).length = 1 ∧
    (compound_order_json_tags 3).length = 1 ∧
    compound_total_quantity 40000 = 10000 := by
  refine ⟨?_, ?_, ?_, ?_, ?_, ?_⟩ <;>
    norm_num [compound_order_json_tags, compound_total_quantity, pyRound]

/-- C4 (code bug): in `generate_compound_entry_info` (whipsaw_0.2.py
lines 320-335) the long case offsets the previous entry price as the
claim states, and both stop formulas match the claim, but the short
case NEGATES the previous price
(`- last_entry priceCondition - offset * atr`): at previous price 1.20,
offset 1, stop distance 0.01 it produces the negative trigger -1.21
instead of the 1.19 required by the claim. -/
theorem c4_short_compound_negation_bug :
    compound_price_condition true (6/5) 1 (1/100) = 121/100 ∧
    compound_sl_price true (121/100) (1/100) = 6/5 ∧
    compound_price_condition false (6/5) 1 (1/100) = -(121/100) ∧
    compound_price_condition false (6/5) 1 (1/100) < 0 ∧
    spec_compound_price_short (6/5) 1 (1/100) = 119/100 ∧
    compound_price_condition false (6/5) 1 (1/100) ≠
      spec_compound_price_short (6/5) 1 (1/100) ∧
    compound_sl_price false (119/100) (1/100) = 6/5 := by
  norm_num [compound_price_condition, compound_sl_price, spec_compound_price_short]

/-- C5: the direction classification of `run` (whipsaw_0.2.py lines
66-77, whipsaw_0.1.py lines 69-74) is flat exactly when the absolute
exposure is at most 100 units (the boundary values 100 and -100 are
flat), long exactly above 100, short exactly below -100; in particular
150 classifies long and 50 classifies flat. -/
theorem c5_classify_noise_band (x : ℚ) :
    (classify x = Direction.long ↔ 100 < x) ∧
    (classify x = Direction.short ↔ x < -100) ∧
    (classify x = Direction.flat ↔ |x| ≤ 100) ∧
    classify 150 = Direction.long ∧ classify 50 = Direction.flat ∧
    classify 100 = Direction.flat ∧ classify (-100) = Direction.flat := by
  refine ⟨?_, ?_, ?_, by norm_num [classify], by norm_num [classify],
    by norm_num [classify], by norm_num [classify]⟩
  · unfold classify
    split_ifs with h1 h2 <;> simp_all
  · unfold classify
    split_ifs with h1 h2 <;> simp_all
    linarith
  · unfold classify
    rw [abs_le]
    split_ifs with h1 h2 <;> simp_all

/-- C6 counterexample: at available funds 1000 and stop distance -1
(which is ≤ 0), `set_position_size` does NOT fail — it performs the
division and returns the quantity -5, so the claim that every
non-positive stop distance fails with InvalidStopDistance before the
division is false; no such guard exists in the source. -/
theorem c6_counterexample :
    set_position_size 1000 (-1) 1 true = Except.ok (-5) := by
  norm_num [set_position_size, pyRound]

/-- C6 amended: `set_position_size` has no stop-distance guard.  A stop
distance of exactly 0 fails only because the division itself raises
ZeroDivisionError, while a negative stop distance is divided through
and yields a non-positive quantity. -/
theorem c6_no_guard_amended (funds sl : ℚ) (hf : 0 ≤ funds) (hs : sl < 0) :
    (∃ q : ℤ, set_position_size funds sl 1 true = Except.ok q ∧ q ≤ 0) ∧
    set_position_size funds 0 1 true = Except.error RunError.zeroDivision := by
  constructor
  · refine ⟨pyRound (funds * (5/1000) / sl), ?_, ?_⟩
    · simp [set_position_size, hs.ne]
    · apply pyRound_nonpos
      apply div_nonpos_of_nonneg_of_nonpos
      · positivity
      · exact hs.le
  · simp [set_position_size]

/-- Witness for the amended C6 at funds 1000 and stop distance -1. -/
theorem c6_witness :
    (∃ q : ℤ, set_position_size 1000 (-1) 1 true = Except.ok q ∧ q ≤ 0) ∧
    set_position_size 1000 0 1 true = Except.error RunError.zeroDivision :=
  c6_no_guard_amended 1000 (-1) (by norm_num) (by norm_num)

/-- C7 counterexample: the run loop has no per-instrument error
isolation.  The flat instrument processes fine on its own, but when it
follows the corrupted short instrument in the same batch, the raised
error ends the loop and the flat instrument is never processed — so a
failure on one instrument DOES abort the batch. -/
theorem c7_counterexample :
    run_instrument flat_input = Except.ok RunOutcome.placedInitialEntries ∧
    run_instrument corrupt_short_input = Except.error RunError.unitCorrupted ∧
    run_batch [corrupt_short_input, flat_input] = ([], some RunError.unitCorrupted) ∧
    run_batch [flat_input] = ([RunOutcome.placedInitialEntries], none) := by
  have h1 : run_instrument flat_input = Except.ok RunOutcome.placedInitialEntries := by
    norm_num [run_instrument, flat_input, is_long_flag, is_short_flag]
  have h2 : run_instrument corrupt_short_input = Except.error RunError.unitCorrupted := by
    norm_num [run_instrument, corrupt_short_input, is_long_flag, is_short_flag,
      remaining_orders_calc, pyRound, abs, Except.map]
  exact ⟨h1, h2, by simp [run_batch, h2], by simp [run_batch, h1]⟩

/-- C7 amended: the `for` loop of `run` has no try/except, so an error
raised while processing one instrument propagates, the whole invocation
stops, and no instrument after the failing one is processed. -/
theorem c7_abort_amended (w : InstrumentRun) (rest : List InstrumentRun)
    (e : RunError) (h : run_instrument w = Except.error e) :
    run_batch (w :: rest) = ([], some e) := by
  simp [run_batch, h]

/-- Witness for the amended C7: the corrupted short instrument aborts
the two-instrument batch. -/
theorem c7_witness :
    run_batch [corrupt_short_input, flat_input] = ([], some RunError.unitCorrupted) :=
  c7_abort_amended corrupt_short_input [flat_input] RunError.unitCorrupted
    (by norm_num [run_instrument, corrupt_short_input, is_long_flag, is_short_flag,
      remaining_orders_calc, pyRound, abs, Except.map])

/-- C8 (code bug): the reset performed by the flat transition does not
clear the record.  `clear_orders_from_json` saves the record unchanged
(its inner loop only rebinds the loop variable), and the following
`save_unit_info_to_json` call cannot store a flat direction or a zero
unit size because false and 0 are falsy.  Starting from a persisted
long unit of 15000 with a filled first tranche and flipping to live
exposure 20 (inside the noise band), the persisted record afterwards
still carries the filled tranche, still has isLong true, and records
currentUnitSize 20 rather than 0. -/
theorem c8_reset_noop_bug :
    clear_orders_from_json sample_long_store default_order_name_list = sample_long_store ∧
    (flat_branch_persist sample_long_store 40000 20 cleared_order_data
        cleared_order_data).entryInfo = [("entryA", sample_filled_entryA)] ∧
    sample_filled_entryA.totalQuantity = 10000 ∧
    (flat_branch_persist sample_long_store 40000 20 cleared_order_data
        cleared_order_data).unitInfo.isLong = true ∧
    (flat_branch_persist sample_long_store 40000 20 cleared_order_data
        cleared_order_data).unitInfo.currentUnitSize = 20 := by
  refine ⟨?_, ?_, ?_, ?_, ?_⟩ <;> rfl

/-- C9 (code bug): emitted order legs can have non-positive quantity.
The short-unit exit-all leg built in `run` of whipsaw_0.1.py (lines
272-276) passes the live SIGNED cash balance as `total_quantity`, so a
short position of 15000 units produces an exit-all order with quantity
-15000; and the position-sizing rounding itself can return quantity 0
(funds 100, stop distance 1). -/
theorem c9_nonpositive_quantity_bug :
    ((go_short "EUR.USD" (115/100) (117/100) (1/100) (1/100) 0 none true false
        (-15000)).map IBOrder.totalQuantity) = [(-15000 : ℚ)] ∧
    (-15000 : ℚ) < 0 ∧
    set_position_size 100 1 1 true = Except.ok 0 := by
  refine ⟨by rfl, by norm_num, by norm_num [set_position_size, pyRound]⟩

/-- C10: `save_unit_info_to_json` overwrites a stored field only when
the passed value is truthy.  The entry store is untouched by every
call; each numeric field keeps its previous value when 0 is passed or
the argument is omitted; each direction flag keeps its value unless
literally true is passed (so it can never be lowered to false); the two
entry dictionaries are replaced only when one is passed; consequently a
zero currentUnitSize or a cleared direction flag can never be recorded
through this mutator unless it was already stored. -/
theorem c10_truthy_mutator (d : SymbolData)
    (mus cus eap : Option ℚ) (ish isl : Option Bool) (le se : Option OrderData) :
    (save_unit_info_to_json d mus cus eap ish isl le se).entryInfo = d.entryInfo ∧
    (save_unit_info_to_json d mus cus eap ish isl le se).unitInfo.maxUnitSize
      = (if mus.getD 0 = 0 then d.unitInfo.maxUnitSize else mus.getD 0) ∧
    (save_unit_info_to_json d mus cus eap ish isl le se).unitInfo.currentUnitSize
      = (if cus.getD 0 = 0 then d.unitInfo.currentUnitSize else cus.getD 0) ∧
    (save_unit_info_to_json d mus cus eap ish isl le se).unitInfo.exitAllPrice
      = (if eap.getD 0 = 0 then d.unitInfo.exitAllPrice else eap.getD 0) ∧
    (save_unit_info_to_json d mus cus eap ish isl le se).unitInfo.isLong
      = (isl.getD false || d.unitInfo.isLong) ∧
    (save_unit_info_to_json d mus cus eap ish isl le se).unitInfo.isShort
      = (ish.getD false || d.unitInfo.isShort) ∧
    (save_unit_info_to_json d mus cus eap ish isl le se).unitInfo.longEntry
      = le.getD d.unitInfo.longEntry ∧
    (save_unit_info_to_json d mus cus eap ish isl le se).unitInfo.shortEntry
      = se.getD d.unitInfo.shortEntry ∧
    ((save_unit_info_to_json d mus cus eap ish isl le se).unitInfo.currentUnitSize = 0
      ↔ cus.getD 0 = 0 ∧ d.unitInfo.currentUnitSize = 0) ∧
    ((save_unit_info_to_json d mus cus eap ish isl le se).unitInfo.isLong = false
      ↔ isl.getD false = false ∧ d.unitInfo.isLong = false) ∧
    ((save_unit_info_to_json d mus cus eap ish isl le se).unitInfo.isShort = false
      ↔ ish.getD false = false ∧ d.unitInfo.isShort = false) := by
  unfold save_unit_info_to_json
  by_cases h1 : mus.getD 0 = 0 <;> by_cases h2 : cus.getD 0 = 0 <;>
    by_cases h3 : eap.getD 0 = 0 <;>
    cases hl : isl.getD false <;> cases hsh : ish.getD false <;>
    cases le <;> cases se <;>
    simp_all

end Whipsaw
